import Mathlib

/-!
Shallow embedding of the media-ingestion pipeline of a Telegram bot
(src/handlers/audio.ts and src/handlers/video.ts).

Each handler invocation is modelled as a pure function from an
environment (the results the external collaborators would return:
authorizer, rate limiter, downloader, transcriber, streaming backend,
session flags) to the list of observable effects the handler performs,
in program order.  Theorems below settle the specification claims
against these definitions.
-/

namespace Bot

/-- Observable effects performed by a handler invocation, in order. -/
inductive Ev where
  | reply (text : String)
  | editMessage (chatId msgId : Nat) (text : String)
  | deleteMessage (chatId msgId : Nat)
  | rateLimitCheck (userId : Nat)
  | auditRateLimit (userId : Nat) (username : String) (retryAfter : String)
  | download (path : String)
  | transcribe (path : String)
  | startProcessing
  | stopProcessing
  | typingStart
  | typingStop
  | sendStreaming (prompt : String)
  | audit (userId : Nat) (username : String) (kind input output : String)
  | setTitle (title : String)
  | unlink (path : String)
  | processingError (desc : String)
  deriving DecidableEq, Repr

/-- Results the external collaborators return during one invocation. -/
structure Env where
  authorized : Bool
  rateAllowed : Bool
  retryAfter : String
  downloadOk : Bool
  timestamp : Nat
  statusMsgId : Nat
  transcript : Option String
  streamResult : Except String String
  interruptFlag : Bool
  isActive : Bool

/-- Fields of the grammy context used by both handlers. -/
structure Ctx where
  userId : Option Nat
  username : Option String
  chatId : Option Nat

/-- Occurrence of `sub` starting at some position of `s`. -/
def containsSubAux (sub : List Char) : List Char → Bool
  | [] => sub.isEmpty
  | c :: t => sub.isPrefixOf (c :: t) || containsSubAux sub t

/-- JS substring containment, `s.includes(sub)`. -/
def containsSub (s sub : String) : Bool := containsSubAux sub.data s.data

/-- JS `s.slice(0, n)`: the first `n` characters of `s`. -/
def strTake (s : String) (n : Nat) : String := String.mk (s.data.take n)

/-- JS `s.split(sep)` for a single-character separator. -/
def splitOnChar (sep : Char) : List Char → List (List Char)
  | [] => [[]]
  | c :: t =>
    if c = sep then [] :: splitOnChar sep t
    else
      match splitOnChar sep t with
      | [] => [[c]]
      | h :: r => (c :: h) :: r

/-- Model of `ctx.from?.username || "unknown"` (empty string is falsy). -/
def usernameOf (u : Option String) : String :=
  match u with
  | some s => if s = "" then "unknown" else s
  | none => "unknown"

/-- Error classification in the audio catch block (audio.ts lines 127-134). -/
def classifyStreamError (interruptFlag : Bool) (e : String) : List Ev :=
  if containsSub e "abort" || containsSub e "cancel" then
    if interruptFlag then [] else [.reply "🛑 Query stopped."]
  else
    [.reply ("❌ Error: " ++ strTake e 200)]

/-- Transcript preview shown in the status edit (audio.ts lines 83-87). -/
def displayTranscript (transcript : String) : String :=
  if transcript.length > 4000 then strTake transcript 4000 ++ "…" else transcript

/-- Prompt assembly for audio (audio.ts lines 95-97); an empty caption is
falsy in JS, so it yields the bare transcript. -/
def audioPrompt (transcript : String) (caption : Option String) : String :=
  match caption with
  | some c => if c = "" then transcript else transcript ++ "\n\n---\n\n" ++ c
  | none => transcript

/-- Conversation-title truncation (audio.ts lines 101-104, video.ts 120-121). -/
def titleOf (source : String) : String :=
  if source.length > 50 then strTake source 47 ++ "..." else source

/-- Model of `processAudioFile` (audio.ts lines 50-146). -/
def processAudioFile (transcriptionAvailable : Bool) (env : Env)
    (filePath : String) (caption : Option String)
    (userId : Nat) (username : String) (chatId : Nat) : List Ev :=
  if !transcriptionAvailable then
    [.reply "Voice transcription is not configured. Set OPENAI_API_KEY in .env"]
  else
    [.startProcessing, .typingStart,
     .reply "🎤 Transcribing audio...", .transcribe filePath] ++
    (match env.transcript with
     | none => [.editMessage chatId env.statusMsgId "❌ Transcription failed."]
     | some transcript =>
       [.editMessage chatId env.statusMsgId
          ("🎤 \"" ++ displayTranscript transcript ++ "\"")] ++
       (if !env.isActive then [.setTitle (titleOf transcript)] else []) ++
       [.sendStreaming (audioPrompt transcript caption)] ++
       (match env.streamResult with
        | .ok resp => [.audit userId username "AUDIO" transcript resp]
        | .error e => classifyStreamError env.interruptFlag e)) ++
    [.stopProcessing, .typingStop, .unlink filePath]

/-- Audio message fields the handler reads. -/
structure AudioMsg where
  file_name : Option String

/-- Extension derivation, `audio.file_name?.split(".").pop() || "mp3"`
(audio.ts line 184).  `split(".").pop()` is the last dot-separated
segment (the whole name when there is no dot); the `|| "mp3"` default
applies when the name is absent or the last segment is empty. -/
def audioExt (fileName : Option String) : String :=
  match fileName with
  | none => "mp3"
  | some name =>
    let seg := (splitOnChar '.' name.data).getLastD []
    if seg.isEmpty then "mp3" else String.mk seg

/-- Scratch path for audio (audio.ts line 185). -/
def audioScratchPath (tempDir : String) (timestamp : Nat)
    (fileName : Option String) : String :=
  tempDir ++ "/audio_" ++ toString timestamp ++ "." ++ audioExt fileName

/-- Model of `handleAudio` (audio.ts lines 151-207). -/
def handleAudio (transcriptionAvailable : Bool) (tempDir : String) (env : Env)
    (ctx : Ctx) (audio : Option AudioMsg) (caption : Option String) : List Ev :=
  match ctx.userId, ctx.chatId, audio with
  | some userId, some chatId, some a =>
    let username := usernameOf ctx.username
    if !env.authorized then
      [.reply "Unauthorized. Contact the bot owner for access."]
    else
      [.rateLimitCheck userId] ++
      if !env.rateAllowed then
        [.auditRateLimit userId username env.retryAfter,
         .reply ("⏳ Rate limited. Please wait " ++ env.retryAfter ++ " seconds.")]
      else
        if !env.downloadOk then
          [.reply "❌ Failed to download audio file."]
        else
          let audioPath := audioScratchPath tempDir env.timestamp a.file_name
          [.download audioPath] ++
          processAudioFile transcriptionAvailable env audioPath caption
            userId username chatId
  | _, _, _ => []

/-- Maximum declared video size accepted (video.ts line 16). -/
def MAX_VIDEO_SIZE : Nat := 50 * 1024 * 1024

/-- Size gate condition `video.file_size && video.file_size > MAX_VIDEO_SIZE`
(video.ts line 65); a declared size of 0 is falsy in JS. -/
def sizeTooBig (fileSize : Option Nat) : Bool :=
  match fileSize with
  | some n => n != 0 && n > MAX_VIDEO_SIZE
  | none => false

/-- Scratch path for video (video.ts lines 28-32); both branches of the
video-note conditional produce "mp4". -/
def videoScratchPath (tempDir : String) (timestamp : Nat)
    (isVideoNote : Bool) : String :=
  tempDir ++ "/video_" ++ toString timestamp ++ "." ++
    (if isVideoNote then "mp4" else "mp4")

/-- Prompt assembly for video (video.ts lines 113-115); an empty caption
is falsy, giving the no-caption template. -/
def videoPrompt (videoPath : String) (caption : Option String) : String :=
  match caption with
  | some c =>
    if c = "" then
      "I\x27ve received a video file at path: " ++ videoPath ++
        "\n\nPlease transcribe it for me."
    else
      "Here\x27s a video file at path: " ++ videoPath ++ "\n\nUser says: " ++ c
  | none =>
    "I\x27ve received a video file at path: " ++ videoPath ++
      "\n\nPlease transcribe it for me."

/-- Title source for video, `caption || "[Video]"` (video.ts line 119). -/
def videoTitleSource (caption : Option String) : String :=
  match caption with
  | some c => if c = "" then "[Video]" else c
  | none => "[Video]"

/-- Audit input for video, `caption || "[video]"` (video.ts line 138). -/
def videoAuditInput (caption : Option String) : String :=
  match caption with
  | some c => if c = "" then "[video]" else c
  | none => "[video]"

/-- Video message fields the handler reads. -/
structure VideoMsg where
  file_size : Option Nat
  isVideoNote : Bool

/-- Model of `handleVideo` (video.ts lines 47-165). -/
def handleVideo (tempDir : String) (env : Env) (ctx : Ctx)
    (video : Option VideoMsg) (caption : Option String) : List Ev :=
  match ctx.userId, ctx.chatId, video with
  | some userId, some chatId, some v =>
    let username := usernameOf ctx.username
    if !env.authorized then
      [.reply "Unauthorized. Contact the bot owner for access."]
    else if sizeTooBig v.file_size then
      [.reply "❌ Video too large. Maximum size is 50MB."]
    else
      [.rateLimitCheck userId] ++
      if !env.rateAllowed then
        [.auditRateLimit userId username env.retryAfter,
         .reply ("⏳ Rate limited. Please wait " ++ env.retryAfter ++ " seconds.")]
      else
        [.reply "📹 Downloading video..."] ++
        if !env.downloadOk then
          [.editMessage chatId env.statusMsgId "❌ Failed to download video."]
        else
          let videoPath := videoScratchPath tempDir env.timestamp v.isVideoNote
          [.download videoPath, .startProcessing, .typingStart,
           .editMessage chatId env.statusMsgId "📹 Processing video..."] ++
          (if !env.isActive then
             [.setTitle (titleOf (videoTitleSource caption))]
           else []) ++
          [.sendStreaming (videoPrompt videoPath caption)] ++
          (match env.streamResult with
           | .ok resp =>
             [.audit userId username "VIDEO" (videoAuditInput caption) resp,
              .deleteMessage chatId env.statusMsgId]
           | .error e =>
             [.deleteMessage chatId env.statusMsgId, .processingError e]) ++
          [.stopProcessing, .typingStop]
  | _, _, _ => []

/-- Predicate: the event is a lock acquisition. -/
def isStart : Ev → Bool
  | .startProcessing => true
  | _ => false

/-- Predicate: the event is a lock release. -/
def isStop : Ev → Bool
  | .stopProcessing => true
  | _ => false

/-- Predicate: the event is a reply with the given text. -/
def isReply (s : String) : Ev → Bool
  | .reply t => t = s
  | _ => false

/-- Predicate: the event is any reply. -/
def isReplyAny : Ev → Bool
  | .reply _ => true
  | _ => false

/-- Predicate: the event is a scratch-file download. -/
def isDownload : Ev → Bool
  | .download _ => true
  | _ => false

/-- Predicate: the event is a rate-limit check. -/
def isRateCheck : Ev → Bool
  | .rateLimitCheck _ => true
  | _ => false

/-- Predicate: the event writes any audit record (content or throttle). -/
def isAudit : Ev → Bool
  | .audit _ _ _ _ _ => true
  | .auditRateLimit _ _ _ => true
  | _ => false

/-- Predicate: the event sets the conversation title. -/
def isSetTitle : Ev → Bool
  | .setTitle _ => true
  | _ => false

/-- Predicate: the event deletes the given scratch file. -/
def isUnlink (p : String) : Ev → Bool
  | .unlink q => q = p
  | _ => false

/-- Predicate: the event is the streaming dispatch call. -/
def isSend : Ev → Bool
  | .sendStreaming _ => true
  | _ => false

/-- Predicate: the event is a transcription call. -/
def isTranscribe : Ev → Bool
  | .transcribe _ => true
  | _ => false

/-- Predicate: the event edits a message to the given text. -/
def isEditTo (s : String) : Ev → Bool
  | .editMessage _ _ t => t = s
  | _ => false

/-- Predicate: the event is a streaming dispatch with the given prompt. -/
def isSendOf (p : String) : Ev → Bool
  | .sendStreaming q => q = p
  | _ => false

/-- Predicate: the event sets the conversation title to the given text. -/
def isSetTitleOf (s : String) : Ev → Bool
  | .setTitle t => t = s
  | _ => false

/-- Predicate: the event downloads to the given path. -/
def isDownloadOf (p : String) : Ev → Bool
  | .download q => q = p
  | _ => false

/- ------------------------------------------------------------------ -/
/- Helper lemmas shared by the claim theorems.                         -/
/- ------------------------------------------------------------------ -/

/-- Two strings with different first characters are different. -/
theorem ne_head (a b : String) (h : ¬ a.data.head? = b.data.head?) : a ≠ b :=
  fun hh => h (congrArg (fun s => s.data.head?) hh)

/-- The classifier never acquires the lock. -/
theorem classify_no_lock_acq (f : Bool) (e : String) :
    (classifyStreamError f e).countP isStart = 0 := by
  unfold classifyStreamError
  split_ifs <;> simp [isStart]

/-- The classifier never releases the lock. -/
theorem classify_no_lock_rel (f : Bool) (e : String) :
    (classifyStreamError f e).countP isStop = 0 := by
  unfold classifyStreamError
  split_ifs <;> simp [isStop]

/-- The classifier sets no title. -/
theorem classify_no_title_any (f : Bool) (e : String) :
    (classifyStreamError f e).countP isSetTitle = 0 := by
  unfold classifyStreamError
  split_ifs <;> simp [isSetTitle]

/-- The classifier sets no title, for any target text. -/
theorem classify_no_title (f : Bool) (e x : String) :
    (classifyStreamError f e).countP (isSetTitleOf x) = 0 := by
  unfold classifyStreamError
  split_ifs <;> simp [isSetTitleOf]

/-- The classifier downloads nothing, for any target path. -/
theorem classify_no_download (f : Bool) (e x : String) :
    (classifyStreamError f e).countP (isDownloadOf x) = 0 := by
  unfold classifyStreamError
  split_ifs <;> simp [isDownloadOf]

/-- The classifier dispatches nothing to the backend. -/
theorem classify_no_send (f : Bool) (e x : String) :
    (classifyStreamError f e).countP (isSendOf x) = 0 := by
  unfold classifyStreamError
  split_ifs <;> simp [isSendOf]

/-- In `processAudioFile` the lock-acquisition count always equals the
release count, and is at most one. -/
theorem audio_lock_paired (ta : Bool) (env : Env) (fp : String)
    (ca : Option String) (uid : Nat) (un : String) (ch : Nat) :
    (processAudioFile ta env fp ca uid un ch).countP isStart =
      (processAudioFile ta env fp ca uid un ch).countP isStop ∧
    (processAudioFile ta env fp ca uid un ch).countP isStart ≤ 1 ∧
    (processAudioFile ta env fp ca uid un ch).countP isStop ≤ 1 := by
  unfold processAudioFile
  rcases ta with _ | _
  · simp [isStart, isStop]
  · rcases env.transcript with _ | t
    · simp [isStart, isStop]
    · rcases env.streamResult with e | r
      · simp [isStart, isStop, List.countP_append,
          classify_no_lock_acq, classify_no_lock_rel]
        split_ifs <;> simp [isStart, isStop]
      · split_ifs <;> simp [isStart, isStop]

/-- A string starting with the error-reply prefix starts with its glyph. -/
theorem err_head (x : String) : ("❌ Error: " ++ x).data.head? = some '❌' := rfl

/-- A rate-limit reply starts with the throttle glyph, whatever the
rendered retry-after value is. -/
theorem rate_reply_head (retry : String) :
    ("⏳ Rate limited. Please wait " ++ retry ++ " seconds.").data.head? =
      some '⏳' := rfl

/-- The fixed stopped notice is never an error-prefixed reply. -/
theorem stopped_ne_err (x : String) :
    ("🛑 Query stopped." : String) ≠ "❌ Error: " ++ x := by
  intro h
  have h2 := congrArg (fun s => s.data.head?) h
  simp only [err_head] at h2
  exact absurd h2 (by decide)

/-- The fixed transcription status reply is never an error-prefixed reply. -/
theorem status_ne_err (x : String) :
    ("🎤 Transcribing audio..." : String) ≠ "❌ Error: " ++ x := by
  intro h
  have h2 := congrArg (fun s => s.data.head?) h
  simp only [err_head] at h2
  exact absurd h2 (by decide)

/-- In `handleAudio` the lock-acquisition count always equals the release
count, and is at most one. -/
theorem handleAudio_lock_paired (ta : Bool) (td : String) (env : Env) (ctx : Ctx)
    (a : Option AudioMsg) (ca : Option String) :
    (handleAudio ta td env ctx a ca).countP isStart =
      (handleAudio ta td env ctx a ca).countP isStop ∧
    (handleAudio ta td env ctx a ca).countP isStart ≤ 1 := by
  obtain ⟨u, un, c⟩ := ctx
  have hp := audio_lock_paired ta env
    (audioScratchPath td env.timestamp ((a.getD ⟨none⟩).file_name)) ca
    (u.getD 0) (usernameOf un) (c.getD 0)
  rcases u with _ | uid <;> rcases c with _ | ch <;> rcases a with _ | a <;>
    simp [handleAudio, isStart, isStop]
  split_ifs <;> simp_all [List.countP_cons, isStart, isStop]

/-- In `handleVideo` the lock-acquisition count always equals the release
count, and is at most one. -/
theorem handleVideo_lock_paired (td : String) (env : Env) (ctx : Ctx)
    (v : Option VideoMsg) (cv : Option String) :
    (handleVideo td env ctx v cv).countP isStart =
      (handleVideo td env ctx v cv).countP isStop ∧
    (handleVideo td env ctx v cv).countP isStart ≤ 1 := by
  obtain ⟨u, un, c⟩ := ctx
  obtain ⟨auth, rate, retry, dl, ts, mid, tr, sr, intf, act⟩ := env
  rcases u with _ | uid <;> rcases c with _ | ch <;> rcases v with _ | v <;>
    rcases auth with _ | _ <;> rcases rate with _ | _ <;> rcases dl with _ | _ <;>
    rcases act with _ | _ <;> rcases sr with e | r <;>
    simp [handleVideo, isStart, isStop] <;>
    split_ifs <;>
    simp_all [List.countP_cons, isStart, isStop]

/-- A split produces at least one segment. -/
theorem splitOnChar_ne_nil (sep : Char) (l : List Char) :
    splitOnChar sep l ≠ [] := by
  induction l with
  | nil => simp [splitOnChar]
  | cons c t ih =>
    rw [splitOnChar]
    split_ifs with hc
    · simp
    · rcases h : splitOnChar sep t with _ | ⟨h1, r⟩
      · exact absurd h ih
      · simp [h]

/-- Splitting a list free of the separator yields the list itself as the
single segment. -/
theorem splitOnChar_of_not_mem (sep : Char) (l : List Char) (h : sep ∉ l) :
    splitOnChar sep l = [l] := by
  induction l with
  | nil => rfl
  | cons c t ih =>
    simp only [List.mem_cons, not_or] at h
    obtain ⟨h1, h2⟩ := h
    rw [splitOnChar, if_neg (fun hh => h1 hh.symm), ih h2]

/-- Splitting a list that contains the separator yields at least two
segments. -/
theorem splitOnChar_append_len (sep : Char) (xs e : List Char) :
    2 ≤ (splitOnChar sep (xs ++ sep :: e)).length := by
  induction xs with
  | nil =>
    rw [List.nil_append, splitOnChar, if_pos rfl]
    rcases hsp : splitOnChar sep e with _ | ⟨h1, r⟩
    · exact absurd hsp (splitOnChar_ne_nil sep e)
    · simp
  | cons c t ih =>
    rw [List.cons_append, splitOnChar]
    split_ifs with hc
    · simp only [List.length_cons]
      omega
    · rcases hsp : splitOnChar sep (t ++ sep :: e) with _ | ⟨h1, r⟩
      · exact absurd hsp (splitOnChar_ne_nil sep _)
      · rw [hsp] at ih
        simp only [List.length_cons] at ih ⊢
        omega

/-- The last segment of a split is everything after the last separator. -/
theorem splitOnChar_getLast_append (sep : Char) (xs e : List Char)
    (he : sep ∉ e) :
    (splitOnChar sep (xs ++ sep :: e)).getLast? = some e := by
  induction xs with
  | nil =>
    rw [List.nil_append, splitOnChar, if_pos rfl, splitOnChar_of_not_mem sep e he]
    rfl
  | cons c t ih =>
    have hlen := splitOnChar_append_len sep t e
    rw [List.cons_append, splitOnChar]
    split_ifs with hc
    · rcases hsp : splitOnChar sep (t ++ sep :: e) with _ | ⟨h1, r⟩
      · exact absurd hsp (splitOnChar_ne_nil sep _)
      · rw [hsp] at ih
        rw [List.getLast?_cons_cons]
        exact ih
    · rcases hsp : splitOnChar sep (t ++ sep :: e) with _ | ⟨h1, r⟩
      · exact absurd hsp (splitOnChar_ne_nil sep _)
      · rw [hsp] at ih hlen
        rcases r with _ | ⟨r0, r'⟩
        · simp at hlen
        · rw [List.getLast?_cons_cons]
          rw [List.getLast?_cons_cons] at ih
          exact ih

/-- For a filename with a last dot followed by a nonempty, dot-free
suffix, the derived extension is that suffix verbatim. -/
theorem audioExt_last_segment (xs e : List Char) (he : ('.' : Char) ∉ e)
    (hne : e ≠ []) :
    audioExt (some (String.mk (xs ++ '.' :: e))) = String.mk e := by
  have h := splitOnChar_getLast_append '.' xs e he
  rcases e with _ | ⟨e0, e'⟩
  · exact absurd rfl hne
  · simp [audioExt, h]

/-- For a dot-free nonempty filename, the derived extension is the whole
filename, not the "mp3" default. -/
theorem audioExt_no_dot (s : List Char) (hs : ('.' : Char) ∉ s) (hne : s ≠ []) :
    audioExt (some (String.mk s)) = String.mk s := by
  rcases s with _ | ⟨c, t⟩
  · exact absurd rfl hne
  · simp [audioExt, splitOnChar_of_not_mem '.' (c :: t) hs]

/-- For a filename ending in a dot the last segment is empty and the
"mp3" default applies. -/
theorem audioExt_trailing_dot (xs : List Char) :
    audioExt (some (String.mk (xs ++ ['.']))) = "mp3" := by
  have h := splitOnChar_getLast_append '.' xs [] (by simp)
  simp [audioExt, h]

/-- `processAudioFile` performs no download, whatever the target path. -/
theorem audio_no_download (ta : Bool) (env : Env) (fp : String)
    (ca : Option String) (uid : Nat) (un : String) (ch : Nat) (x : String) :
    (processAudioFile ta env fp ca uid un ch).countP (isDownloadOf x) = 0 := by
  unfold processAudioFile
  rcases ta with _ | _
  · simp [isDownloadOf]
  · rcases env.transcript with _ | t
    · simp [isDownloadOf]
    · rcases env.streamResult with e | r
      · simp [isDownloadOf, classify_no_download, List.countP_append]
      · split_ifs <;> simp [isDownloadOf]

/- ------------------------------------------------------------------ -/
/- Claim theorems.                                                     -/
/- ------------------------------------------------------------------ -/

/-- C3: for every invocation, audio or video, the number of lock
acquisitions via `startProcessing` equals the number of invocations of
the release callback, and is at most one — so any invocation that
acquires the lock releases it exactly once, on every exit path,
including when `sendMessageStreaming` raises (the `streamResult` field
of the environment is universally quantified, covering the raising
case). -/
theorem lock_release_exactly_once (ta : Bool) (td : String) (env : Env)
    (ctx : Ctx) (a : Option AudioMsg) (v : Option VideoMsg)
    (ca cv : Option String) :
    ((handleAudio ta td env ctx a ca).countP isStart =
      (handleAudio ta td env ctx a ca).countP isStop ∧
     (handleAudio ta td env ctx a ca).countP isStart ≤ 1) ∧
    ((handleVideo td env ctx v cv).countP isStart =
      (handleVideo td env ctx v cv).countP isStop ∧
     (handleVideo td env ctx v cv).countP isStart ≤ 1) :=
  ⟨handleAudio_lock_paired ta td env ctx a ca,
   handleVideo_lock_paired td env ctx v cv⟩

/-- C6: for every user failing authorization, audio and video alike, the
handler returns exactly one fixed denial reply, with no download, no
rate-limit check, and no audit record of any kind (the environment field
encoding the allow-list check is false; everything else is arbitrary). -/
theorem unauthorized_single_denial (ta : Bool) (td retry : String)
    (rate dl intf act note : Bool) (ts mid : Nat) (tr : Option String)
    (sr : Except String String) (uid ch : Nat) (unO : Option String)
    (a : AudioMsg) (fs : Option Nat) (ca cv : Option String) :
    handleAudio ta td ⟨false, rate, retry, dl, ts, mid, tr, sr, intf, act⟩
        ⟨some uid, unO, some ch⟩ (some a) ca =
      [.reply "Unauthorized. Contact the bot owner for access."] ∧
    handleVideo td ⟨false, rate, retry, dl, ts, mid, tr, sr, intf, act⟩
        ⟨some uid, unO, some ch⟩ (some ⟨fs, note⟩) cv =
      [.reply "Unauthorized. Contact the bot owner for access."] ∧
    (handleAudio ta td ⟨false, rate, retry, dl, ts, mid, tr, sr, intf, act⟩
        ⟨some uid, unO, some ch⟩ (some a) ca).countP isDownload = 0 ∧
    (handleAudio ta td ⟨false, rate, retry, dl, ts, mid, tr, sr, intf, act⟩
        ⟨some uid, unO, some ch⟩ (some a) ca).countP isRateCheck = 0 ∧
    (handleAudio ta td ⟨false, rate, retry, dl, ts, mid, tr, sr, intf, act⟩
        ⟨some uid, unO, some ch⟩ (some a) ca).countP isAudit = 0 ∧
    (handleAudio ta td ⟨false, rate, retry, dl, ts, mid, tr, sr, intf, act⟩
        ⟨some uid, unO, some ch⟩ (some a) ca).countP isReplyAny = 1 ∧
    (handleVideo td ⟨false, rate, retry, dl, ts, mid, tr, sr, intf, act⟩
        ⟨some uid, unO, some ch⟩ (some ⟨fs, note⟩) cv).countP isDownload = 0 ∧
    (handleVideo td ⟨false, rate, retry, dl, ts, mid, tr, sr, intf, act⟩
        ⟨some uid, unO, some ch⟩ (some ⟨fs, note⟩) cv).countP isRateCheck = 0 ∧
    (handleVideo td ⟨false, rate, retry, dl, ts, mid, tr, sr, intf, act⟩
        ⟨some uid, unO, some ch⟩ (some ⟨fs, note⟩) cv).countP isAudit = 0 ∧
    (handleVideo td ⟨false, rate, retry, dl, ts, mid, tr, sr, intf, act⟩
        ⟨some uid, unO, some ch⟩ (some ⟨fs, note⟩) cv).countP isReplyAny = 1 := by
  simp [handleAudio, handleVideo, isDownload, isRateCheck, isAudit, isReplyAny]

/-- C4: every video whose declared size strictly exceeds 50 MiB (written
`MAX_VIDEO_SIZE + k + 1` to range over exactly those sizes) is rejected
by an authorized user's invocation with the single fixed size-exceeded
reply and nothing else: no rate-limit check, no download, no lock
acquisition; and authorization still precedes the size gate, since an
unauthorized invocation with the same oversized file gets the denial
reply instead. -/
theorem video_size_gate (td retry : String) (rate dl intf act note : Bool)
    (ts mid : Nat) (tr : Option String) (sr : Except String String)
    (cv : Option String) (uid ch : Nat) (unO : Option String) (k : Nat) :
    handleVideo td ⟨true, rate, retry, dl, ts, mid, tr, sr, intf, act⟩
        ⟨some uid, unO, some ch⟩ (some ⟨some (MAX_VIDEO_SIZE + k + 1), note⟩) cv =
      [.reply "❌ Video too large. Maximum size is 50MB."] ∧
    handleVideo td ⟨false, rate, retry, dl, ts, mid, tr, sr, intf, act⟩
        ⟨some uid, unO, some ch⟩ (some ⟨some (MAX_VIDEO_SIZE + k + 1), note⟩) cv =
      [.reply "Unauthorized. Contact the bot owner for access."] ∧
    (handleVideo td ⟨true, rate, retry, dl, ts, mid, tr, sr, intf, act⟩
        ⟨some uid, unO, some ch⟩ (some ⟨some (MAX_VIDEO_SIZE + k + 1), note⟩)
        cv).countP isRateCheck = 0 ∧
    (handleVideo td ⟨true, rate, retry, dl, ts, mid, tr, sr, intf, act⟩
        ⟨some uid, unO, some ch⟩ (some ⟨some (MAX_VIDEO_SIZE + k + 1), note⟩)
        cv).countP isDownload = 0 ∧
    (handleVideo td ⟨true, rate, retry, dl, ts, mid, tr, sr, intf, act⟩
        ⟨some uid, unO, some ch⟩ (some ⟨some (MAX_VIDEO_SIZE + k + 1), note⟩)
        cv).countP isStart = 0 := by
  have hgate : sizeTooBig (some (MAX_VIDEO_SIZE + k + 1)) = true := by
    simp [sizeTooBig, MAX_VIDEO_SIZE]
    omega
  simp [handleVideo, hgate, isRateCheck, isDownload, isStart]

/-- C10: when the declared video size is absent or reported as zero, the
size gate is skipped entirely — no size-exceeded reply is ever sent, the
rate-limit check runs, and (when the rate limiter and download
collaborators allow) the download proceeds, whatever the actual file
contents are. -/
theorem video_size_gate_skipped_when_absent (td retry : String)
    (rate dl intf act note : Bool) (ts mid : Nat) (tr : Option String)
    (sr : Except String String) (cv : Option String) (uid ch : Nat)
    (unO : Option String) :
    (handleVideo td ⟨true, rate, retry, dl, ts, mid, tr, sr, intf, act⟩
        ⟨some uid, unO, some ch⟩ (some ⟨none, note⟩) cv).countP
      (isReply "❌ Video too large. Maximum size is 50MB.") = 0 ∧
    (handleVideo td ⟨true, rate, retry, dl, ts, mid, tr, sr, intf, act⟩
        ⟨some uid, unO, some ch⟩ (some ⟨none, note⟩) cv).countP isRateCheck = 1 ∧
    (handleVideo td ⟨true, rate, retry, dl, ts, mid, tr, sr, intf, act⟩
        ⟨some uid, unO, some ch⟩ (some ⟨some 0, note⟩) cv).countP
      (isReply "❌ Video too large. Maximum size is 50MB.") = 0 ∧
    (handleVideo td ⟨true, rate, retry, dl, ts, mid, tr, sr, intf, act⟩
        ⟨some uid, unO, some ch⟩ (some ⟨some 0, note⟩) cv).countP isRateCheck = 1 ∧
    (handleVideo td ⟨true, true, retry, true, ts, mid, tr, sr, intf, act⟩
        ⟨some uid, unO, some ch⟩ (some ⟨none, note⟩) cv).countP isDownload = 1 ∧
    (handleVideo td ⟨true, true, retry, true, ts, mid, tr, sr, intf, act⟩
        ⟨some uid, unO, some ch⟩ (some ⟨some 0, note⟩) cv).countP isDownload = 1 := by
  have hne : ("⏳ Rate limited. Please wait " ++ retry ++ " seconds." : String) ≠
      "❌ Video too large. Maximum size is 50MB." :=
    ne_head _ _ (by rw [rate_reply_head]; decide)
  rcases rate with _ | _ <;> rcases dl with _ | _ <;> rcases act with _ | _ <;>
    rcases sr with e | r <;>
    simp [handleVideo, sizeTooBig, isReply, isRateCheck, isDownload, hne]

/-- C5: a failure raised by the streaming dispatch in the audio pipeline
whose description contains the case-sensitive substring "abort" or
"cancel" is treated as user cancellation: with a pending interrupt flag
no reply at all is added (only the one earlier status reply exists in
the trace), without it exactly one fixed "query stopped" reply is sent;
any non-matching failure yields exactly one reply made of the fixed
prefix and the first 200 characters of the description. -/
theorem stream_error_classification (auth rate dl intf act : Bool)
    (retry : String) (ts mid : Nat) (t e : String) (fp : String)
    (ca : Option String) (uid : Nat) (un : String) (ch : Nat) :
    ((containsSub e "abort" || containsSub e "cancel") = true →
      (intf = true →
        (processAudioFile true ⟨auth, rate, retry, dl, ts, mid, some t,
            .error e, intf, act⟩ fp ca uid un ch).countP isReplyAny = 1 ∧
        (processAudioFile true ⟨auth, rate, retry, dl, ts, mid, some t,
            .error e, intf, act⟩ fp ca uid un ch).countP
          (isReply "🛑 Query stopped.") = 0) ∧
      (intf = false →
        (processAudioFile true ⟨auth, rate, retry, dl, ts, mid, some t,
            .error e, intf, act⟩ fp ca uid un ch).countP
          (isReply "🛑 Query stopped.") = 1 ∧
        (processAudioFile true ⟨auth, rate, retry, dl, ts, mid, some t,
            .error e, intf, act⟩ fp ca uid un ch).countP isReplyAny = 2)) ∧
    ((containsSub e "abort" || containsSub e "cancel") = false →
      (processAudioFile true ⟨auth, rate, retry, dl, ts, mid, some t,
          .error e, intf, act⟩ fp ca uid un ch).countP
        (isReply ("❌ Error: " ++ strTake e 200)) = 1 ∧
      (processAudioFile true ⟨auth, rate, retry, dl, ts, mid, some t,
          .error e, intf, act⟩ fp ca uid un ch).countP
        (isReply "🛑 Query stopped.") = 0 ∧
      (processAudioFile true ⟨auth, rate, retry, dl, ts, mid, some t,
          .error e, intf, act⟩ fp ca uid un ch).countP isReplyAny = 2) := by
  simp only [processAudioFile, classifyStreamError]
  refine ⟨fun hm => ⟨fun hi => ?_, fun hi => ?_⟩, fun hm => ?_⟩ <;>
    rcases act with _ | _ <;>
    simp_all [isReply, isReplyAny, status_ne_err,
      Ne.symm (status_ne_err (strTake e 200)),
      Ne.symm (stopped_ne_err (strTake e 200))]

/-- C5 witness: the classification theorem applied at three concrete
failures — a matching one with the interrupt flag pending, a matching
one without it, and a non-matching one. -/
theorem stream_error_classification_witness :
    (processAudioFile true ⟨true, true, "1.0", true, 0, 0, some "t",
        .error "abort", true, true⟩ "p" none 1 "u" 2).countP isReplyAny = 1 ∧
    (processAudioFile true ⟨true, true, "1.0", true, 0, 0, some "t",
        .error "abort", false, true⟩ "p" none 1 "u" 2).countP
      (isReply "🛑 Query stopped.") = 1 ∧
    (processAudioFile true ⟨true, true, "1.0", true, 0, 0, some "t",
        .error "boom", false, true⟩ "p" none 1 "u" 2).countP
      (isReply ("❌ Error: " ++ strTake "boom" 200)) = 1 :=
  ⟨(((stream_error_classification true true true true true "1.0" 0 0 "t"
      "abort" "p" none 1 "u" 2).1 (by decide)).1 rfl).1,
   (((stream_error_classification true true true false true "1.0" 0 0 "t"
      "abort" "p" none 1 "u" 2).1 (by decide)).2 rfl).1,
   ((stream_error_classification true true true false true "1.0" 0 0 "t"
      "boom" "p" none 1 "u" 2).2 (by decide)).1⟩

/-- C1 counterexample: at a concrete audio invocation whose transcription
collaborator signals failure, the processing lock IS acquired (count 1,
not 0), contradicting the claim that the lock is never acquired on that
path; the same trace does contain the fixed failure-marker edit, showing
this is the claimed scenario. -/
theorem audio_lock_on_transcription_failure_counterexample :
    (processAudioFile true ⟨true, true, "1.0", true, 0, 0, none,
        .ok "r", false, true⟩ "p" none 1 "u" 2).countP isStart = 1 ∧
    (processAudioFile true ⟨true, true, "1.0", true, 0, 0, none,
        .ok "r", false, true⟩ "p" none 1 "u" 2).countP
      (isEditTo "❌ Transcription failed.") = 1 := by
  decide

/-- C1 amended: when the transcription collaborator signals failure, the
handler edits the in-progress status message to the fixed failure
marker, never dispatches to the backend, and the scratch file is still
deleted in cleanup; the processing lock, however, has already been
acquired before transcription and is released exactly once in cleanup. -/
theorem audio_transcription_failure_aborts (auth rate dl intf act : Bool)
    (retry : String) (ts mid : Nat) (sr : Except String String)
    (fp : String) (ca : Option String) (uid : Nat) (un : String) (ch : Nat) :
    (processAudioFile true ⟨auth, rate, retry, dl, ts, mid, none, sr, intf, act⟩
      fp ca uid un ch).countP (isEditTo "❌ Transcription failed.") = 1 ∧
    (processAudioFile true ⟨auth, rate, retry, dl, ts, mid, none, sr, intf, act⟩
      fp ca uid un ch).countP isSend = 0 ∧
    (processAudioFile true ⟨auth, rate, retry, dl, ts, mid, none, sr, intf, act⟩
      fp ca uid un ch).countP (isUnlink fp) = 1 ∧
    (processAudioFile true ⟨auth, rate, retry, dl, ts, mid, none, sr, intf, act⟩
      fp ca uid un ch).countP isStart = 1 ∧
    (processAudioFile true ⟨auth, rate, retry, dl, ts, mid, none, sr, intf, act⟩
      fp ca uid un ch).countP isStop = 1 := by
  simp [processAudioFile, isEditTo, isSend, isUnlink, isStart, isStop]

/-- C2 counterexample: at a concrete invocation with transcription
statically unavailable and all gates passing, the trace downloads the
audio file BEFORE the fixed configuration-error reply is sent,
contradicting the claim that the pipeline short-circuits before any
download occurs. -/
theorem config_reply_after_download_counterexample :
    handleAudio false "tmp" ⟨true, true, "1.0", true, 7, 9, none, .ok "r",
        false, true⟩ ⟨some 1, some "u", some 2⟩ (some ⟨none⟩) none =
      [.rateLimitCheck 1, .download "tmp/audio_7.mp3",
       .reply "Voice transcription is not configured. Set OPENAI_API_KEY in .env"] := by
  decide

/-- C2 amended: when `TRANSCRIPTION_AVAILABLE` is false and the
authorization, rate-limit and download stages pass, the audio pipeline
replies with the fixed configuration-error message and stops before the
processing lock is acquired and before any transcription — but only
after `handleAudio` has already downloaded the file to the scratch path,
and that scratch file is never deleted. -/
theorem config_unavailable_reply_before_lock (td retry : String)
    (intf act : Bool) (ts mid : Nat) (tr : Option String)
    (sr : Except String String) (fn : Option String) (ca : Option String)
    (uid ch : Nat) (unO : Option String) :
    handleAudio false td ⟨true, true, retry, true, ts, mid, tr, sr, intf, act⟩
        ⟨some uid, unO, some ch⟩ (some ⟨fn⟩) ca =
      [.rateLimitCheck uid, .download (audioScratchPath td ts fn),
       .reply "Voice transcription is not configured. Set OPENAI_API_KEY in .env"] ∧
    (handleAudio false td ⟨true, true, retry, true, ts, mid, tr, sr, intf, act⟩
        ⟨some uid, unO, some ch⟩ (some ⟨fn⟩) ca).countP isStart = 0 ∧
    (handleAudio false td ⟨true, true, retry, true, ts, mid, tr, sr, intf, act⟩
        ⟨some uid, unO, some ch⟩ (some ⟨fn⟩) ca).countP isTranscribe = 0 ∧
    (handleAudio false td ⟨true, true, retry, true, ts, mid, tr, sr, intf, act⟩
        ⟨some uid, unO, some ch⟩ (some ⟨fn⟩) ca).countP
      (isUnlink (audioScratchPath td ts fn)) = 0 := by
  simp [handleAudio, processAudioFile, isStart, isTranscribe, isUnlink]

/-- C7 counterexample: the prompt assembled from transcript "hello" and
caption "summarize" is not the spec's rendering with a space after the
separator — the code's separator is exactly a newline pair, three
dashes, and a newline pair, with no space before the caption. -/
theorem audio_prompt_separator_counterexample :
    audioPrompt "hello" (some "summarize") ≠ "hello\n\n---\n\n summarize" := by
  decide

/-- C7 amended: with no caption, or with an empty caption (falsy in JS),
the assembled prompt is exactly the transcript; with a nonempty caption
the prompt is the full untruncated transcript, the separator
"\n\n---\n\n" (no space), and the caption — and the pipeline dispatches
exactly that prompt to the backend. -/
theorem audio_prompt_assembly (auth rate dl intf act : Bool)
    (retry : String) (ts mid : Nat) (sr : Except String String)
    (t c fp : String) (uid : Nat) (un : String) (ch : Nat) (hc : c ≠ "") :
    audioPrompt t none = t ∧
    audioPrompt t (some "") = t ∧
    audioPrompt t (some c) = t ++ "\n\n---\n\n" ++ c ∧
    (processAudioFile true ⟨auth, rate, retry, dl, ts, mid, some t, sr, intf, act⟩
      fp (some c) uid un ch).countP (isSendOf (audioPrompt t (some c))) = 1 ∧
    (processAudioFile true ⟨auth, rate, retry, dl, ts, mid, some t, sr, intf, act⟩
      fp none uid un ch).countP (isSendOf t) = 1 := by
  refine ⟨rfl, rfl, by simp [audioPrompt, hc], ?_, ?_⟩ <;>
    rcases sr with e | r <;> rcases act with _ | _ <;>
    simp [processAudioFile, audioPrompt, hc, isSendOf, classify_no_send]

/-- C7 witness: the amended assembly theorem applied at Scenario-B-like
concrete values. -/
theorem audio_prompt_assembly_witness :
    audioPrompt "hello world" (some "summarize") =
      "hello world" ++ "\n\n---\n\n" ++ "summarize" :=
  (audio_prompt_assembly true true true false false "1.0" 0 0 (.ok "r")
    "hello world" "summarize" "p" 1 "u" 2 (by decide)).2.2.1

/-- C8: the conversation title is assigned only when the session is not
active (exactly once per invocation then, never otherwise), from the
transcript for audio and the caption-or-"[Video]" placeholder for video;
a source of more than 50 characters is truncated to a 50-character title
ending in the 3-character ellipsis "...", and a source of at most 50
characters is used unchanged. -/
theorem title_once_and_truncated (auth rate dl intf : Bool) (retry td : String)
    (ts mid : Nat) (t : String) (sr : Except String String) (fp : String)
    (ca cv : Option String) (uid ch : Nat) (un : String) (unO : Option String)
    (note : Bool) (source : String) :
    (processAudioFile true ⟨auth, rate, retry, dl, ts, mid, some t, sr, intf, true⟩
      fp ca uid un ch).countP isSetTitle = 0 ∧
    (processAudioFile true ⟨auth, rate, retry, dl, ts, mid, some t, sr, intf, false⟩
      fp ca uid un ch).countP (isSetTitleOf (titleOf t)) = 1 ∧
    (processAudioFile true ⟨auth, rate, retry, dl, ts, mid, some t, sr, intf, false⟩
      fp ca uid un ch).countP isSetTitle = 1 ∧
    (handleVideo td ⟨true, true, retry, true, ts, mid, some t, sr, intf, true⟩
      ⟨some uid, unO, some ch⟩ (some ⟨none, note⟩) cv).countP isSetTitle = 0 ∧
    (handleVideo td ⟨true, true, retry, true, ts, mid, some t, sr, intf, false⟩
      ⟨some uid, unO, some ch⟩ (some ⟨none, note⟩) cv).countP
        (isSetTitleOf (titleOf (videoTitleSource cv))) = 1 ∧
    (handleVideo td ⟨true, true, retry, true, ts, mid, some t, sr, intf, false⟩
      ⟨some uid, unO, some ch⟩ (some ⟨none, note⟩) cv).countP isSetTitle = 1 ∧
    (source.length ≤ 50 → titleOf source = source) ∧
    (50 < source.length →
      titleOf source = strTake source 47 ++ "..." ∧ (titleOf source).length = 50) := by
  refine ⟨?_, ?_, ?_, ?_, ?_, ?_, fun h => ?_, fun h => ?_⟩
  · rcases sr with e | r <;>
      simp [processAudioFile, isSetTitle, classify_no_title_any]
  · rcases sr with e | r <;>
      simp [processAudioFile, isSetTitleOf, classify_no_title]
  · rcases sr with e | r <;>
      simp [processAudioFile, isSetTitle, classify_no_title_any]
  · rcases sr with e | r <;>
      simp [handleVideo, sizeTooBig, isSetTitle]
  · rcases sr with e | r <;>
      simp [handleVideo, sizeTooBig, isSetTitleOf]
  · rcases sr with e | r <;>
      simp [handleVideo, sizeTooBig, isSetTitle]
  · rw [titleOf, if_neg (by omega)]
  · obtain ⟨l⟩ := source
    rw [titleOf, if_pos (by exact h)]
    refine ⟨rfl, ?_⟩
    have h3 : ("..." : String).length = 3 := rfl
    simp only [String.length_append, h3, strTake]
    simp only [String.length_mk] at h ⊢
    simp [List.length_take]
    omega

/-- C8 witness: the title theorem applied at a short source (kept
unchanged) and at a 60-character source (truncated to length 50). -/
theorem title_once_and_truncated_witness :
    titleOf "hi" = "hi" ∧
    (titleOf (String.mk (List.replicate 60 'a'))).length = 50 :=
  ⟨(title_once_and_truncated true true true true "1.0" "tmp" 0 0 "t" (.ok "r")
      "p" none none 1 2 "u" none true "hi").2.2.2.2.2.2.1 (by decide),
   ((title_once_and_truncated true true true true "1.0" "tmp" 0 0 "t" (.ok "r")
      "p" none none 1 2 "u" none true
      (String.mk (List.replicate 60 'a'))).2.2.2.2.2.2.2 (by decide)).2⟩

/-- C9 counterexample: the extension placed in the scratch path is not
derived case-insensitively — filenames "x.MP3" and "x.mp3" yield
different extensions — and a filename with no dot yields itself as the
extension, not the claimed "mp3" default. -/
theorem audio_ext_counterexample :
    audioExt (some "x.MP3") ≠ audioExt (some "x.mp3") ∧
    audioExt (some "track") ≠ "mp3" := by
  decide

/-- C9 amended: scratch files are created at
`{TEMP_DIR}/{kind}_{timestampMillis}.{ext}`; for audio the extension is
the segment after the last dot of the original filename taken verbatim
(case-preserving), the whole filename when it contains no dot, and the
default "mp3" only when the filename is absent or its last segment is
empty; for any video or video note the extension is the fixed "mp4". -/
theorem scratch_path_pattern (ta : Bool) (td retry : String) (ts mid : Nat)
    (tr : Option String) (sr : Except String String) (intf act note : Bool)
    (fn : Option String) (ca cv : Option String) (uid ch : Nat)
    (unO : Option String) (xs e s : List Char)
    (he : ('.' : Char) ∉ e) (hene : e ≠ [])
    (hs : ('.' : Char) ∉ s) (hsne : s ≠ []) :
    (handleAudio ta td ⟨true, true, retry, true, ts, mid, tr, sr, intf, act⟩
        ⟨some uid, unO, some ch⟩ (some ⟨fn⟩) ca).countP
      (isDownloadOf (td ++ "/audio_" ++ toString ts ++ "." ++ audioExt fn)) = 1 ∧
    (handleVideo td ⟨true, true, retry, true, ts, mid, tr, sr, intf, act⟩
        ⟨some uid, unO, some ch⟩ (some ⟨none, note⟩) cv).countP
      (isDownloadOf (td ++ "/video_" ++ toString ts ++ "." ++ "mp4")) = 1 ∧
    audioExt none = "mp3" ∧
    audioExt (some (String.mk (xs ++ '.' :: e))) = String.mk e ∧
    audioExt (some (String.mk s)) = String.mk s ∧
    audioExt (some (String.mk (xs ++ ['.']))) = "mp3" := by
  refine ⟨?_, ?_, rfl, audioExt_last_segment xs e he hene,
    audioExt_no_dot s hs hsne, audioExt_trailing_dot xs⟩
  · simp [handleAudio, audioScratchPath, isDownloadOf, audio_no_download]
  · rcases note with _ | _ <;> rcases sr with er | r <;> rcases act with _ | _ <;>
      simp [handleVideo, sizeTooBig, videoScratchPath, isDownloadOf]

/-- C9 witness: the amended path theorem applied at a concrete filename
"a.mp3" decomposition and a concrete dot-free filename. -/
theorem scratch_path_pattern_witness :
    audioExt (some (String.mk (['a'] ++ '.' :: ['m', 'p', '3']))) =
      String.mk ['m', 'p', '3'] :=
  (scratch_path_pattern true "tmp" "1.0" 0 0 none (.ok "r") false false false
    none none none 1 2 none ['a'] ['m', 'p', '3'] ['x']
    (by decide) (by decide) (by decide) (by decide)).2.2.2.1

end Bot
